import Mathlib

/-!
Shallow embedding of the kavach customer app's command-synchronization and
lock-state engine: the background fetch task and push listener of
`src/services/deviceService.js`, the kiosk capability wrappers of
`src/services/kioskService.js`, and the push-command callback wired up in
`App.js`.  `AsyncStorage` is modelled as an association list of string keys
and string values; asynchronous side effects (notifications, vibration,
acknowledgement requests, lockdown capability calls) are recorded in an
explicit effect log; the `setTimeout` used for the factory-reset delay is
modelled as a list of pending fire times together with an explicit clock.
-/

namespace Kavach

/-- The persistent key/value store (`AsyncStorage`): an association list from
keys to string values, newest binding first per key. -/
abbrev Store := List (String × String)

/-- `AsyncStorage.getItem`: the value bound to `k`, or `none` (JS `null`). -/
def Store.getItem (st : Store) (k : String) : Option String :=
  match st with
  | [] => none
  | (k1, v) :: rest => if k1 = k then some v else Store.getItem rest k

/-- `AsyncStorage.setItem`: bind `k` to `v`, replacing any previous binding. -/
def Store.setItem (st : Store) (k v : String) : Store :=
  match st with
  | [] => [(k, v)]
  | (k1, v1) :: rest =>
      if k1 = k then (k, v) :: rest else (k1, v1) :: Store.setItem rest k v

/-- `AsyncStorage.removeItem`: drop every binding of `k`. -/
def Store.removeItem (st : Store) (k : String) : Store :=
  match st with
  | [] => []
  | (k1, v1) :: rest =>
      if k1 = k then Store.removeItem rest k
      else (k1, v1) :: Store.removeItem rest k

/-- JS falsiness of an `AsyncStorage.getItem` result or a destructured data
field: `null`/`undefined` (`none`) and the empty string are falsy. -/
def jsFalsy : Option String → Bool
  | none => true
  | some s => s = ""

/-- JS `a || d` for an optional string `a` and a string default `d`. -/
def jsOr (a : Option String) (d : String) : String :=
  match a with
  | none => d
  | some s => if s = "" then d else s

/-- JS `a || b` for two optional strings (used for
`getItem('keyId') || getItem('activationKey')`). -/
def jsOrOpt (a b : Option String) : Option String :=
  if jsFalsy a then b else a

/-- The server status payload `response.data.data`: at least `status`,
`command` and `lockMessage` (either of the latter may be absent). -/
structure StatusReport where
  status : String
  command : Option String
  lockMessage : Option String
deriving Repr, DecidableEq

/-- One observable side effect of a reconciliation cycle, in order of
occurrence: the status fetch, a scheduled local notification, the vibration
alert of `ringDevice`, an acknowledgement request, and the two
lockdown-capability invocations made by the `App` push callback. -/
inductive Effect where
  | fetchStatus (key : String)
  | notify (title : String) (body : String)
  | ring
  | acknowledge (keyId : String) (command : String)
  | applyFullLockdown
  | releaseLockdown
deriving Repr, DecidableEq

/-- The engine state: the persistent store, the current clock value
(`Date.now()` in milliseconds) and the fire times of factory-reset timers
scheduled by `setTimeout(performFactoryReset, 10000)` that have not yet
fired. -/
structure SyncState where
  store : Store
  now : Nat
  pendingResets : List Nat
deriving Repr, DecidableEq

/-- `Notifications.scheduleNotificationAsync`: either the notification is
delivered (one `notify` effect) or the call rejects with an error message
(`notifyErr`), in which case no effect is logged and the error propagates to
the caller. -/
def sendLocalNotification (title body : String) (notifyErr : Option String) :
    List Effect × Option String :=
  match notifyErr with
  | some e => ([], some e)
  | none => ([Effect.notify title body], none)

/-- `handleCommand(command, status)` of `deviceService.js`: the command
dispatcher.  Returns the new state, the effects logged before any throw, and
the error, if any, that the dispatch threw (a rejected notification call).
Store writes that precede the throwing call remain applied, exactly as the
partially executed JS function leaves them. -/
def handleCommand (cmd : String) (lockMessage : Option String)
    (notifyErr : Option String) (s : SyncState) :
    SyncState × List Effect × Option String :=
  if cmd = "lock" then
    let st := (s.store.setItem "isLocked" "true").setItem "lockMessage"
      (jsOr lockMessage "")
    let n := sendLocalNotification "Device Locked"
      (jsOr lockMessage "Your device has been locked") notifyErr
    ({ s with store := st }, n.1, n.2)
  else if cmd = "unlock" then
    let st := (s.store.setItem "isLocked" "false").removeItem "lockMessage"
    let n := sendLocalNotification "Device Unlocked"
      "Your device has been unlocked" notifyErr
    ({ s with store := st }, n.1, n.2)
  else if cmd = "reminder" then
    let n := sendLocalNotification "EMI Payment Reminder"
      "Your EMI payment is due. Please pay to avoid device lock." notifyErr
    (s, n.1, n.2)
  else if cmd = "find" ∨ cmd = "ring" then
    let n := sendLocalNotification "Find Device"
      "Your device is ringing. Tap to stop." notifyErr
    (s, Effect.ring :: n.1, n.2)
  else if cmd = "expired" then
    let st := (s.store.setItem "isLocked" "false").removeItem "lockMessage"
    let n := sendLocalNotification "EMI Completed"
      "Congratulations! Your EMI is complete. The device lock will be removed automatically."
      notifyErr
    ({ s with store := st }, n.1, n.2)
  else if cmd = "reset" then
    let n := sendLocalNotification "Device Reset Initiated"
      "Your device will be reset in 10 seconds. All data will be erased." notifyErr
    match n.2 with
    | some e => (s, n.1, some e)
    | none =>
        ({ s with pendingResets := s.pendingResets ++ [s.now + 10000] }, n.1, none)
  else
    (s, [], none)

/-- `performFactoryReset` of `deviceService.js`: `AsyncStorage.clear()` wipes
every key (the Android native factory reset is a placeholder in the source,
and on iOS only app data is cleared). -/
def performFactoryReset (_ : Store) : Store := []

/-- Advance the clock to `t`: every pending reset timer whose fire time has
been reached runs `performFactoryReset`, wiping the store. -/
def advanceTo (t : Nat) (s : SyncState) : SyncState :=
  if s.pendingResets.any (fun r => decide (r ≤ t)) then
    { store := performFactoryReset s.store, now := t,
      pendingResets := s.pendingResets.filter (fun r => decide (t < r)) }
  else
    { s with now := t }

/-- `isDeviceLocked` of `deviceService.js`:
`(await AsyncStorage.getItem('isLocked')) === 'true'`. -/
def isDeviceLocked (st : Store) : Bool :=
  st.getItem "isLocked" == some "true"

/-- The outcome of `deviceAPI.getDeviceStatus(key)`: either the response
arrives after `durationMs` milliseconds carrying a status payload, or the
request rejects with an error message. -/
inductive FetchOutcome where
  | success (report : StatusReport) (durationMs : Nat)
  | failure (message : String)
deriving Repr, DecidableEq

/-- The external behaviour one background cycle observes: the fetch outcome
and whether `Notifications.scheduleNotificationAsync` rejects during the
dispatch (the acknowledgement request may also fail, but its `try`/`catch`
swallows the error, so it never changes the cycle's result). -/
structure TaskEnv where
  fetch : FetchOutcome
  notifyErr : Option String
deriving Repr, DecidableEq

/-- `BackgroundFetch.BackgroundFetchResult` as returned by the task. -/
inductive FetchResult where
  | NoData
  | NewData
  | Failed
deriving Repr, DecidableEq

/-- The `lastSyncError` value written by the task's catch block:
`JSON.stringify(\x7b error: message, timestamp \x7d)`. -/
def syncErrorJson (message : String) (timestamp : Nat) : String :=
  "\x7b\"error\":\"" ++ message ++ "\",\"timestamp\":" ++ toString timestamp ++ "\x7d"

/-- JSON rendering of an optional string field. -/
def optJson (v : Option String) : String :=
  match v with
  | none => "null"
  | some s => "\"" ++ s ++ "\""

/-- The `deviceStatus` value written on success: `JSON.stringify(status)`. -/
def statusJson (r : StatusReport) : String :=
  "\x7b\"status\":\"" ++ r.status ++ "\",\"command\":" ++ optJson r.command ++
    ",\"lockMessage\":" ++ optJson r.lockMessage ++ "\x7d"

/-- The task's dispatch condition `status.command && status.command !== 'none'`:
a present, truthy command other than the literal string `none`. -/
def shouldDispatch : Option String → Bool
  | none => false
  | some c => !(c = "") && !(c = "none")

/-- The commands `handleCommand` has a case for; any other command value
falls through to the no-op `default` branch. -/
def recognizedCommand (c : String) : Bool :=
  c = "lock" || c = "unlock" || c = "reminder" || c = "find" || c = "ring" ||
    c = "expired" || c = "reset"

/-- The task builds an `AbortController` and schedules `controller.abort()` at
25000 ms, but `deviceAPI.getDeviceStatus(key)` is called without the
controller's signal (and the axios instance of `config/api.js` sets no
timeout), so the request never observes the abort. -/
def abortSignalConnected : Bool := false

/-- Whether the in-flight status request is actually torn down by the
25-second abort timer: only if the signal had been wired to the request. -/
def fetchAborted (durationMs : Nat) : Bool :=
  abortSignalConnected && decide (durationMs > 25000)

/-- One run of the `BACKGROUND_FETCH_TASK` body (`device-status-check`):
reads the activation key, fetches status, dispatches a present command,
acknowledges it, records the sync bookkeeping, and converts every thrown
error into a `Failed` result with a persisted `lastSyncError` record.
Returns the new state, the task result and the effect log. -/
def backgroundTask (env : TaskEnv) (s : SyncState) :
    SyncState × FetchResult × List Effect :=
  match s.store.getItem "activationKey" with
  | none => (s, FetchResult.NoData, [])
  | some key =>
      if key = "" then (s, FetchResult.NoData, [])
      else
        match env.fetch with
        | FetchOutcome.failure msg =>
            ({ s with store := s.store.setItem "lastSyncError" (syncErrorJson msg s.now) },
              FetchResult.Failed, [Effect.fetchStatus key])
        | FetchOutcome.success report dur =>
            if fetchAborted dur then
              ({ s with store :=
                  s.store.setItem "lastSyncError" (syncErrorJson "Aborted" s.now) },
                FetchResult.Failed, [Effect.fetchStatus key])
            else if shouldDispatch report.command then
              let cmd := report.command.getD ""
              let d := handleCommand cmd report.lockMessage env.notifyErr s
              match d.2.2 with
              | some e =>
                  ({ d.1 with store :=
                      d.1.store.setItem "lastSyncError" (syncErrorJson e s.now) },
                    FetchResult.Failed, Effect.fetchStatus key :: d.2.1)
              | none =>
                  let st1 := d.1.store.setItem "deviceStatus" (statusJson report)
                  let st2 := st1.setItem "lastSyncTime" (toString (s.now + dur))
                  ({ d.1 with store := st2 }, FetchResult.NewData,
                    Effect.fetchStatus key :: d.2.1 ++ [Effect.acknowledge key cmd])
            else
              let st1 := s.store.setItem "deviceStatus" (statusJson report)
              let st2 := st1.setItem "lastSyncTime" (toString (s.now + dur))
              ({ s with store := st2 }, FetchResult.NewData, [Effect.fetchStatus key])

/-- The push-command callback `App.js` registers with
`setupPushNotificationListener`: `lock` enables full lockdown, `unlock`
disables it, every other command leaves the capability untouched. -/
def appOnCommandReceived (cmd : String) : List Effect :=
  if cmd = "lock" then [Effect.applyFullLockdown]
  else if cmd = "unlock" then [Effect.releaseLockdown]
  else []

/-- One delivery to the foreground push listener of
`setupPushNotificationListener`: a truthy `command` is dispatched through
`handleCommand`, then the `App` callback runs, then the command is
acknowledged under `getItem('keyId') || getItem('activationKey')` when that
is truthy (acknowledgement errors are swallowed).  A dispatch error rejects
the listener's async callback, so the callback and acknowledgement never
run. -/
def pushDeliver (command : Option String) (lockMessage : Option String)
    (notifyErr : Option String) (s : SyncState) : SyncState × List Effect :=
  if jsFalsy command then (s, [])
  else
    let cmd := command.getD ""
    let d := handleCommand cmd lockMessage notifyErr s
    match d.2.2 with
    | some _ => (d.1, d.2.1)
    | none =>
        let cb := appOnCommandReceived cmd
        let keyId := jsOrOpt (d.1.store.getItem "keyId") (d.1.store.getItem "activationKey")
        let ack := if jsFalsy keyId then [] else [Effect.acknowledge (keyId.getD "") cmd]
        (d.1, d.2.1 ++ cb ++ ack)

/-- Whether an effect is an acknowledgement request. -/
def Effect.isAck : Effect → Bool
  | Effect.acknowledge _ _ => true
  | _ => false

/-- Whether an effect is the full-lockdown apply invocation. -/
def Effect.isApply : Effect → Bool
  | Effect.applyFullLockdown => true
  | _ => false

/-- Whether an effect is the lockdown release invocation. -/
def Effect.isRelease : Effect → Bool
  | Effect.releaseLockdown => true
  | _ => false

/-- Whether an effect is a lockdown-capability invocation. -/
def Effect.isLockdown (e : Effect) : Bool :=
  e.isApply || e.isRelease

/-- Number of acknowledgement requests in an effect log. -/
def ackCount (l : List Effect) : Nat :=
  l.countP Effect.isAck

/-- Number of `enableFullLockdown` invocations in an effect log. -/
def applyCount (l : List Effect) : Nat :=
  l.countP Effect.isApply

/-- Number of `disableFullLockdown` invocations in an effect log. -/
def releaseCount (l : List Effect) : Nat :=
  l.countP Effect.isRelease

/-- Number of lockdown-capability invocations (apply or release). -/
def lockdownCount (l : List Effect) : Nat :=
  l.countP Effect.isLockdown

/-- The outcome of one `DeviceAdminModule` native call: a value, or a thrown
error that the JS wrapper's `catch` must absorb. -/
inductive NativeCall (α : Type) where
  | ok (value : α)
  | throws (message : String)
deriving Repr, DecidableEq

/-- Whether a native call returned without throwing. -/
def NativeCall.succeeded {α : Type} : NativeCall α → Bool
  | NativeCall.ok _ => true
  | NativeCall.throws _ => false

/-- The boundary `kioskService.js` runs against: the platform, the presence
of the `DeviceAdminModule` native module, and the outcome of each native
call it can make (`setUserRestrictions` is called with `true` and `false`,
so both outcomes appear). -/
structure NativeEnv where
  osAndroid : Bool
  moduleAvailable : Bool
  isDeviceAdminCall : NativeCall Bool
  requestDeviceAdminCall : NativeCall Bool
  startLockTaskCall : NativeCall Unit
  stopLockTaskCall : NativeCall Unit
  hideAppCall : NativeCall Unit
  showAppCall : NativeCall Unit
  disableStatusBarCall : NativeCall Unit
  enableStatusBarCall : NativeCall Unit
  setRestrictionsOnCall : NativeCall Unit
  setRestrictionsOffCall : NativeCall Unit
deriving Repr, DecidableEq

/-- `Platform.OS !== 'android' || !DeviceAdminModule`: the guard every
wrapper checks first. -/
def moduleReady (env : NativeEnv) : Bool :=
  env.osAndroid && env.moduleAvailable

/-- `isDeviceAdmin` of `kioskService.js`.  The result type exposes the throw
that the wrapper's `catch` absorbs: an `ok` value is a normal return, a
`throws` value would be an exception escaping to the caller. -/
def isDeviceAdmin (env : NativeEnv) (st : Store) : NativeCall (Store × Bool) :=
  if !moduleReady env then NativeCall.ok (st, false)
  else
    match env.isDeviceAdminCall with
    | NativeCall.ok b => NativeCall.ok (st, b)
    | NativeCall.throws _ => NativeCall.ok (st, false)

/-- `requestDeviceAdmin` of `kioskService.js`. -/
def requestDeviceAdmin (env : NativeEnv) (st : Store) : NativeCall (Store × Bool) :=
  if !moduleReady env then NativeCall.ok (st, false)
  else
    match env.requestDeviceAdminCall with
    | NativeCall.ok b => NativeCall.ok (st, b)
    | NativeCall.throws _ => NativeCall.ok (st, false)

/-- `startLockTaskMode` of `kioskService.js`: on native success it records
`kioskModeActive = 'true'` and returns `true`; a throw is caught and `false`
returned with the store untouched. -/
def startLockTaskMode (env : NativeEnv) (st : Store) : NativeCall (Store × Bool) :=
  if !moduleReady env then NativeCall.ok (st, false)
  else
    match env.startLockTaskCall with
    | NativeCall.ok _ => NativeCall.ok (st.setItem "kioskModeActive" "true", true)
    | NativeCall.throws _ => NativeCall.ok (st, false)

/-- `stopLockTaskMode` of `kioskService.js`. -/
def stopLockTaskMode (env : NativeEnv) (st : Store) : NativeCall (Store × Bool) :=
  if !moduleReady env then NativeCall.ok (st, false)
  else
    match env.stopLockTaskCall with
    | NativeCall.ok _ => NativeCall.ok (st.setItem "kioskModeActive" "false", true)
    | NativeCall.throws _ => NativeCall.ok (st, false)

/-- `hideAppFromLauncher` of `kioskService.js`. -/
def hideAppFromLauncher (env : NativeEnv) (st : Store) : NativeCall (Store × Bool) :=
  if !moduleReady env then NativeCall.ok (st, false)
  else
    match env.hideAppCall with
    | NativeCall.ok _ => NativeCall.ok (st.setItem "appHidden" "true", true)
    | NativeCall.throws _ => NativeCall.ok (st, false)

/-- `showAppInLauncher` of `kioskService.js`. -/
def showAppInLauncher (env : NativeEnv) (st : Store) : NativeCall (Store × Bool) :=
  if !moduleReady env then NativeCall.ok (st, false)
  else
    match env.showAppCall with
    | NativeCall.ok _ => NativeCall.ok (st.setItem "appHidden" "false", true)
    | NativeCall.throws _ => NativeCall.ok (st, false)

/-- `disableStatusBar` of `kioskService.js` (no store write). -/
def disableStatusBar (env : NativeEnv) (st : Store) : NativeCall (Store × Bool) :=
  if !moduleReady env then NativeCall.ok (st, false)
  else
    match env.disableStatusBarCall with
    | NativeCall.ok _ => NativeCall.ok (st, true)
    | NativeCall.throws _ => NativeCall.ok (st, false)

/-- `enableStatusBar` of `kioskService.js`. -/
def enableStatusBar (env : NativeEnv) (st : Store) : NativeCall (Store × Bool) :=
  if !moduleReady env then NativeCall.ok (st, false)
  else
    match env.enableStatusBarCall with
    | NativeCall.ok _ => NativeCall.ok (st, true)
    | NativeCall.throws _ => NativeCall.ok (st, false)

/-- `setUserRestrictions(enable)` of `kioskService.js`. -/
def setUserRestrictions (env : NativeEnv) (enable : Bool) (st : Store) :
    NativeCall (Store × Bool) :=
  if !moduleReady env then NativeCall.ok (st, false)
  else
    match (if enable then env.setRestrictionsOnCall else env.setRestrictionsOffCall) with
    | NativeCall.ok _ => NativeCall.ok (st, true)
    | NativeCall.throws _ => NativeCall.ok (st, false)

/-- The results record `enableFullLockdown` builds and returns. -/
structure LockdownResults where
  deviceAdmin : Bool
  kioskMode : Bool
  appHidden : Bool
  statusBarDisabled : Bool
  restrictionsSet : Bool
deriving Repr, DecidableEq

/-- `enableFullLockdown` of `kioskService.js`: checks device admin, bails out
with an all-false record if absent, otherwise runs the four sub-steps in
order, recording each one's boolean outcome; a sub-step's throw would
propagate (the `throws` arms), but every sub-step catches internally. -/
def enableFullLockdown (env : NativeEnv) (st : Store) :
    NativeCall (Store × LockdownResults) :=
  match isDeviceAdmin env st with
  | NativeCall.throws e => NativeCall.throws e
  | NativeCall.ok (st0, admin) =>
      if !admin then
        NativeCall.ok (st0, ⟨admin, false, false, false, false⟩)
      else
        match startLockTaskMode env st0 with
        | NativeCall.throws e => NativeCall.throws e
        | NativeCall.ok (st1, kiosk) =>
            match hideAppFromLauncher env st1 with
            | NativeCall.throws e => NativeCall.throws e
            | NativeCall.ok (st2, hidden) =>
                match disableStatusBar env st2 with
                | NativeCall.throws e => NativeCall.throws e
                | NativeCall.ok (st3, sbar) =>
                    match setUserRestrictions env true st3 with
                    | NativeCall.throws e => NativeCall.throws e
                    | NativeCall.ok (st4, restr) =>
                        NativeCall.ok (st4, ⟨admin, kiosk, hidden, sbar, restr⟩)

/-- `disableFullLockdown` of `kioskService.js`: the four release sub-steps in
order, results discarded. -/
def disableFullLockdown (env : NativeEnv) (st : Store) : NativeCall Store :=
  match stopLockTaskMode env st with
  | NativeCall.throws e => NativeCall.throws e
  | NativeCall.ok (st1, _) =>
      match showAppInLauncher env st1 with
      | NativeCall.throws e => NativeCall.throws e
      | NativeCall.ok (st2, _) =>
          match enableStatusBar env st2 with
          | NativeCall.throws e => NativeCall.throws e
          | NativeCall.ok (st3, _) =>
              match setUserRestrictions env false st3 with
              | NativeCall.throws e => NativeCall.throws e
              | NativeCall.ok (st4, _) => NativeCall.ok st4

/-! Helper lemmas about the store and the dispatcher. -/

theorem Store.getItem_setItem_self (st : Store) (k v : String) :
    (st.setItem k v).getItem k = some v := by
  induction st with
  | nil => simp [Store.setItem, Store.getItem]
  | cons hd tl ih =>
      obtain ⟨k1, v1⟩ := hd
      by_cases h : k1 = k <;> simp [Store.setItem, Store.getItem, h, ih]

theorem Store.getItem_setItem_other (st : Store) (k v q : String) (h : ¬ k = q) :
    (st.setItem k v).getItem q = st.getItem q := by
  induction st with
  | nil => simp [Store.setItem, Store.getItem, h]
  | cons hd tl ih =>
      obtain ⟨k1, v1⟩ := hd
      by_cases h1 : k1 = k
      · subst h1
        simp [Store.setItem, Store.getItem, h]
      · have h3 : ¬ q = k := fun hq => h hq.symm
        by_cases h2 : k1 = q <;>
          simp [Store.setItem, Store.getItem, h, h1, h2, h3, ih]

theorem Store.getItem_removeItem_self (st : Store) (k : String) :
    (st.removeItem k).getItem k = none := by
  induction st with
  | nil => simp [Store.removeItem, Store.getItem]
  | cons hd tl ih =>
      obtain ⟨k1, v1⟩ := hd
      by_cases h : k1 = k <;> simp [Store.removeItem, Store.getItem, h, ih]

theorem Store.getItem_removeItem_other (st : Store) (k q : String) (h : ¬ k = q) :
    (st.removeItem k).getItem q = st.getItem q := by
  induction st with
  | nil => simp [Store.removeItem, Store.getItem]
  | cons hd tl ih =>
      obtain ⟨k1, v1⟩ := hd
      by_cases h1 : k1 = k
      · subst h1
        simp [Store.removeItem, Store.getItem, h, ih]
      · have h3 : ¬ q = k := fun hq => h hq.symm
        by_cases h2 : k1 = q <;>
          simp [Store.removeItem, Store.getItem, h1, h2, h3, ih]

theorem jsOr_some_empty (m : String) : jsOr (some m) "" = m := by
  by_cases h : m = "" <;> simp [jsOr, h]

/-- With a delivered notification call, the dispatcher never throws. -/
theorem handleCommand_noerr (c : String) (m : Option String) (s : SyncState) :
    (handleCommand c m none s).2.2 = none := by
  unfold handleCommand
  split_ifs <;> simp [sendLocalNotification]

/-- The dispatcher itself never sends an acknowledgement. -/
theorem handleCommand_ackCount (c : String) (m ne : Option String) (s : SyncState) :
    ackCount (handleCommand c m ne s).2.1 = 0 := by
  cases ne <;>
    (unfold handleCommand;
      split_ifs <;>
        simp [sendLocalNotification, ackCount, Effect.isAck, List.countP_cons])

/-- The dispatcher itself never invokes the lockdown capability. -/
theorem handleCommand_lockdownCount (c : String) (m ne : Option String) (s : SyncState) :
    lockdownCount (handleCommand c m ne s).2.1 = 0 := by
  cases ne <;>
    (unfold handleCommand;
      split_ifs <;>
        simp [sendLocalNotification, lockdownCount, Effect.isLockdown,
          Effect.isApply, Effect.isRelease, List.countP_cons])

/-- The dispatcher writes only the `isLocked` and `lockMessage` keys. -/
theorem handleCommand_getItem_other (c : String) (m ne : Option String)
    (s : SyncState) (k : String) (h1 : ¬ k = "isLocked") (h2 : ¬ k = "lockMessage") :
    (handleCommand c m ne s).1.store.getItem k = s.store.getItem k := by
  have e1 : ¬ ("isLocked" : String) = k := fun hq => h1 hq.symm
  have e2 : ¬ ("lockMessage" : String) = k := fun hq => h2 hq.symm
  cases ne <;>
    (unfold handleCommand;
      split_ifs <;>
        simp [sendLocalNotification, Store.getItem_setItem_other, Store.getItem_removeItem_other,
          e1, e2])

/-- The dispatcher never changes the clock. -/
theorem handleCommand_now (c : String) (m ne : Option String) (s : SyncState) :
    (handleCommand c m ne s).1.now = s.now := by
  cases ne <;> (unfold handleCommand; split_ifs <;> simp [sendLocalNotification])

/-- The dispatcher never cancels a pending reset timer: the previous pending
list is an initial segment of the new one. -/
theorem handleCommand_pending_extends (c : String) (m ne : Option String) (s : SyncState) :
    ∃ t, (handleCommand c m ne s).1.pendingResets = s.pendingResets ++ t := by
  cases ne <;>
    (unfold handleCommand;
      split_ifs <;>
        first
          | (refine ⟨[], ?_⟩; simp [sendLocalNotification]; done)
          | (refine ⟨[s.now + 10000], ?_⟩; simp [sendLocalNotification]))

/-- Dispatching `reset` appends exactly one pending wipe, due 10 s later. -/
theorem handleCommand_reset_pending (m : Option String) (s : SyncState) :
    (handleCommand "reset" m none s).1.pendingResets =
      s.pendingResets ++ [s.now + 10000] := by
  unfold handleCommand
  simp [sendLocalNotification]

/-- A pending timer whose fire time has been reached wipes the store. -/
theorem advanceTo_fires (t r : Nat) (s : SyncState) (hmem : r ∈ s.pendingResets)
    (hle : r ≤ t) : (advanceTo t s).store = [] := by
  unfold advanceTo
  have : s.pendingResets.any (fun x => decide (x ≤ t)) = true := by
    exact List.any_eq_true.mpr ⟨r, hmem, by simpa using hle⟩
  simp [this, performFactoryReset]

/-- One cycle with a present identity, a successful fetch, a dispatchable
command and delivered notifications: the task returns `NewData`, dispatches,
acknowledges exactly once, and preserves the activation key.  The store's
history (in particular any record of previously processed commands) is never
consulted. -/
theorem backgroundTask_dispatch_run (env : TaskEnv) (s : SyncState)
    (key : String) (report : StatusReport) (dur : Nat)
    (hk : s.store.getItem "activationKey" = some key) (hk0 : ¬ key = "")
    (hf : env.fetch = FetchOutcome.success report dur)
    (hn : env.notifyErr = none)
    (hc : shouldDispatch report.command = true) :
    (backgroundTask env s).2.1 = FetchResult.NewData ∧
    ackCount (backgroundTask env s).2.2 = 1 ∧
    (backgroundTask env s).1.store.getItem "activationKey" = some key := by
  have ha := handleCommand_ackCount (report.command.getD "") report.lockMessage none s
  have hg := handleCommand_getItem_other (report.command.getD "") report.lockMessage none s
    "activationKey" (by simp) (by simp)
  have hne := handleCommand_noerr (report.command.getD "") report.lockMessage s
  unfold backgroundTask
  rw [hk, hf, hn]
  simp only [hk0, if_false, fetchAborted, abortSignalConnected, Bool.false_and,
    Bool.false_eq_true, hc, if_true, hne]
  refine ⟨trivial, ?_, ?_⟩
  · simp [ackCount, List.countP_cons, List.countP_append, Effect.isAck] at ha ⊢
    simpa [ackCount] using ha
  · rw [Store.getItem_setItem_other _ _ _ _ (by simp),
      Store.getItem_setItem_other _ _ _ _ (by simp), hg, hk]

/-- A recognized command whose notification call rejects makes the dispatch
throw that error. -/
theorem handleCommand_err_recognized (c : String) (m : Option String) (e : String)
    (s : SyncState) (h : recognizedCommand c = true) :
    (handleCommand c m (some e) s).2.2 = some e := by
  unfold recognizedCommand at h
  unfold handleCommand
  split_ifs <;> simp_all [sendLocalNotification]

/-- A `lock` push delivery: locks the store, records the message, invokes the
full-lockdown capability exactly once and never the release. -/
theorem pushDeliver_lock_spec (s : SyncState) (m : Option String) :
    (pushDeliver (some "lock") m none s).1.store =
      (s.store.setItem "isLocked" "true").setItem "lockMessage" (jsOr m "") ∧
    applyCount (pushDeliver (some "lock") m none s).2 = 1 ∧
    releaseCount (pushDeliver (some "lock") m none s).2 = 0 ∧
    lockdownCount (pushDeliver (some "lock") m none s).2 = 1 := by
  unfold pushDeliver handleCommand
  simp only [jsFalsy, sendLocalNotification, appOnCommandReceived]
  split_ifs <;>
    simp_all [applyCount, releaseCount, lockdownCount, Effect.isLockdown,
      Effect.isApply, Effect.isRelease, List.countP_cons, List.countP_append,
      sendLocalNotification]

/-- A `reminder` push delivery: leaves the state unchanged and makes no
lockdown-capability invocation. -/
theorem pushDeliver_reminder_spec (s : SyncState) :
    (pushDeliver (some "reminder") none none s).1 = s ∧
    applyCount (pushDeliver (some "reminder") none none s).2 = 0 ∧
    releaseCount (pushDeliver (some "reminder") none none s).2 = 0 ∧
    lockdownCount (pushDeliver (some "reminder") none none s).2 = 0 := by
  unfold pushDeliver handleCommand
  simp only [jsFalsy, sendLocalNotification, appOnCommandReceived]
  split_ifs <;>
    simp_all [applyCount, releaseCount, lockdownCount, Effect.isLockdown,
      Effect.isApply, Effect.isRelease, List.countP_cons, List.countP_append,
      sendLocalNotification]

/-- An `unlock` push delivery: unlocks the store, clears the message, invokes
the lockdown release exactly once and never the apply. -/
theorem pushDeliver_unlock_spec (s : SyncState) :
    (pushDeliver (some "unlock") none none s).1.store =
      (s.store.setItem "isLocked" "false").removeItem "lockMessage" ∧
    applyCount (pushDeliver (some "unlock") none none s).2 = 0 ∧
    releaseCount (pushDeliver (some "unlock") none none s).2 = 1 ∧
    lockdownCount (pushDeliver (some "unlock") none none s).2 = 1 := by
  unfold pushDeliver handleCommand
  simp only [jsFalsy, sendLocalNotification, appOnCommandReceived]
  split_ifs <;>
    simp_all [applyCount, releaseCount, lockdownCount, Effect.isLockdown,
      Effect.isApply, Effect.isRelease, List.countP_cons, List.countP_append,
      sendLocalNotification]

/-- The `isDeviceAdmin` wrapper returns a value on every path. -/
theorem isDeviceAdmin_ok (env : NativeEnv) (st : Store) :
    ∃ r, isDeviceAdmin env st = NativeCall.ok r := by
  unfold isDeviceAdmin
  split_ifs
  · exact ⟨_, rfl⟩
  · cases env.isDeviceAdminCall <;> exact ⟨_, rfl⟩

/-- The `requestDeviceAdmin` wrapper returns a value on every path. -/
theorem requestDeviceAdmin_ok (env : NativeEnv) (st : Store) :
    ∃ r, requestDeviceAdmin env st = NativeCall.ok r := by
  unfold requestDeviceAdmin
  split_ifs
  · exact ⟨_, rfl⟩
  · cases env.requestDeviceAdminCall <;> exact ⟨_, rfl⟩

/-- The `startLockTaskMode` wrapper returns a value on every path. -/
theorem startLockTaskMode_ok (env : NativeEnv) (st : Store) :
    ∃ r, startLockTaskMode env st = NativeCall.ok r := by
  unfold startLockTaskMode
  split_ifs
  · exact ⟨_, rfl⟩
  · cases env.startLockTaskCall <;> exact ⟨_, rfl⟩

/-- The `stopLockTaskMode` wrapper returns a value on every path. -/
theorem stopLockTaskMode_ok (env : NativeEnv) (st : Store) :
    ∃ r, stopLockTaskMode env st = NativeCall.ok r := by
  unfold stopLockTaskMode
  split_ifs
  · exact ⟨_, rfl⟩
  · cases env.stopLockTaskCall <;> exact ⟨_, rfl⟩

/-- The `hideAppFromLauncher` wrapper returns a value on every path. -/
theorem hideAppFromLauncher_ok (env : NativeEnv) (st : Store) :
    ∃ r, hideAppFromLauncher env st = NativeCall.ok r := by
  unfold hideAppFromLauncher
  split_ifs
  · exact ⟨_, rfl⟩
  · cases env.hideAppCall <;> exact ⟨_, rfl⟩

/-- The `showAppInLauncher` wrapper returns a value on every path. -/
theorem showAppInLauncher_ok (env : NativeEnv) (st : Store) :
    ∃ r, showAppInLauncher env st = NativeCall.ok r := by
  unfold showAppInLauncher
  split_ifs
  · exact ⟨_, rfl⟩
  · cases env.showAppCall <;> exact ⟨_, rfl⟩

/-- The `disableStatusBar` wrapper returns a value on every path. -/
theorem disableStatusBar_ok (env : NativeEnv) (st : Store) :
    ∃ r, disableStatusBar env st = NativeCall.ok r := by
  unfold disableStatusBar
  split_ifs
  · exact ⟨_, rfl⟩
  · cases env.disableStatusBarCall <;> exact ⟨_, rfl⟩

/-- The `enableStatusBar` wrapper returns a value on every path. -/
theorem enableStatusBar_ok (env : NativeEnv) (st : Store) :
    ∃ r, enableStatusBar env st = NativeCall.ok r := by
  unfold enableStatusBar
  split_ifs
  · exact ⟨_, rfl⟩
  · cases env.enableStatusBarCall <;> exact ⟨_, rfl⟩

/-- The `setUserRestrictions` wrapper returns a value on every path. -/
theorem setUserRestrictions_ok (env : NativeEnv) (b : Bool) (st : Store) :
    ∃ r, setUserRestrictions env b st = NativeCall.ok r := by
  unfold setUserRestrictions
  cases b <;> split_ifs <;>
    first
      | exact ⟨_, rfl⟩
      | (cases env.setRestrictionsOnCall <;> exact ⟨_, rfl⟩)
      | (cases env.setRestrictionsOffCall <;> exact ⟨_, rfl⟩)

/-- `enableFullLockdown` returns its results record on every path. -/
theorem enableFullLockdown_ok (env : NativeEnv) (st : Store) :
    ∃ r, enableFullLockdown env st = NativeCall.ok r := by
  unfold enableFullLockdown
  obtain ⟨⟨st0, admin⟩, h0⟩ := isDeviceAdmin_ok env st
  simp only [h0]
  cases admin
  · exact ⟨_, rfl⟩
  · obtain ⟨⟨st1, k⟩, h1⟩ := startLockTaskMode_ok env st0
    simp only [h1, Bool.not_true, Bool.false_eq_true, if_false]
    obtain ⟨⟨st2, a⟩, h2⟩ := hideAppFromLauncher_ok env st1
    simp only [h2]
    obtain ⟨⟨st3, b⟩, h3⟩ := disableStatusBar_ok env st2
    simp only [h3]
    obtain ⟨⟨st4, c⟩, h4⟩ := setUserRestrictions_ok env true st3
    simp only [h4]
    exact ⟨_, rfl⟩

/-- `disableFullLockdown` returns on every path. -/
theorem disableFullLockdown_ok (env : NativeEnv) (st : Store) :
    ∃ r, disableFullLockdown env st = NativeCall.ok r := by
  unfold disableFullLockdown
  obtain ⟨⟨st1, k⟩, h1⟩ := stopLockTaskMode_ok env st
  simp only [h1]
  obtain ⟨⟨st2, a⟩, h2⟩ := showAppInLauncher_ok env st1
  simp only [h2]
  obtain ⟨⟨st3, b⟩, h3⟩ := enableStatusBar_ok env st2
  simp only [h3]
  obtain ⟨⟨st4, c⟩, h4⟩ := setUserRestrictions_ok env false st3
  simp only [h4]
  exact ⟨_, rfl⟩

/-- With the module present and device admin granted, `enableFullLockdown`
marks each sub-step's outcome independently in the results record: a failed
sub-step is `false` there, and earlier outcomes are unaffected by later
failures. -/
theorem enableFullLockdown_results (env : NativeEnv) (st : Store)
    (hm : moduleReady env = true)
    (ha : env.isDeviceAdminCall = NativeCall.ok true) :
    ∃ st4, enableFullLockdown env st = NativeCall.ok (st4,
      ⟨true, env.startLockTaskCall.succeeded, env.hideAppCall.succeeded,
        env.disableStatusBarCall.succeeded, env.setRestrictionsOnCall.succeeded⟩) := by
  unfold enableFullLockdown isDeviceAdmin startLockTaskMode hideAppFromLauncher
    disableStatusBar setUserRestrictions
  rw [hm, ha]
  cases h1 : env.startLockTaskCall <;> cases h2 : env.hideAppCall <;>
    cases h3 : env.disableStatusBarCall <;> cases h4 : env.setRestrictionsOnCall <;>
      exact ⟨_, rfl⟩

/-- With the module present, device admin granted and the kiosk native call
succeeding, the kiosk sub-step's store write survives any combination of
later sub-step failures: no rollback. -/
theorem enableFullLockdown_no_rollback (env : NativeEnv) (st : Store)
    (hm : moduleReady env = true)
    (ha : env.isDeviceAdminCall = NativeCall.ok true)
    (hk : env.startLockTaskCall = NativeCall.ok ()) :
    ∃ st4, enableFullLockdown env st = NativeCall.ok (st4,
      ⟨true, true, env.hideAppCall.succeeded, env.disableStatusBarCall.succeeded,
        env.setRestrictionsOnCall.succeeded⟩) ∧
      st4.getItem "kioskModeActive" = some "true" := by
  unfold enableFullLockdown isDeviceAdmin startLockTaskMode hideAppFromLauncher
    disableStatusBar setUserRestrictions
  rw [hm, ha, hk]
  cases h2 : env.hideAppCall <;> cases h3 : env.disableStatusBarCall <;>
    cases h4 : env.setRestrictionsOnCall <;>
      exact ⟨_, rfl, by
        simp [Store.getItem_setItem_self, Store.getItem_setItem_other]⟩

/-! The claims. -/

/-- Claim C1, as amended: the reconciliation cycle has no idempotence guard.
With an identity present, a successful fetch, delivered notifications and a
dispatchable command, every cycle re-dispatches and re-acknowledges — the
incoming command is never compared against any record of previously
acknowledged commands — so running the same `(identity, command)` cycle twice
in succession produces two dispatcher invocations and two acknowledgements,
and the second cycle returns `NewData`, not `NoData`. -/
theorem no_idempotence_guard (env : TaskEnv) (s : SyncState) (key : String)
    (report : StatusReport) (dur : Nat)
    (hk : s.store.getItem "activationKey" = some key) (hk0 : ¬ key = "")
    (hf : env.fetch = FetchOutcome.success report dur)
    (hn : env.notifyErr = none)
    (hc : shouldDispatch report.command = true) :
    (backgroundTask env s).2.1 = FetchResult.NewData ∧
    (backgroundTask env (backgroundTask env s).1).2.1 = FetchResult.NewData ∧
    ackCount (backgroundTask env s).2.2 +
      ackCount (backgroundTask env (backgroundTask env s).1).2.2 = 2 := by
  obtain ⟨h1, h2, h3⟩ := backgroundTask_dispatch_run env s key report dur hk hk0 hf hn hc
  obtain ⟨h4, h5, h6⟩ :=
    backgroundTask_dispatch_run env (backgroundTask env s).1 key report dur h3 hk0 hf hn hc
  exact ⟨h1, h4, by rw [h2, h5]⟩

/-- Witness for `no_idempotence_guard`: identity `ABC123`, command `lock`, the
same report processed by two successive cycles. -/
theorem no_idempotence_guard_witness :
    (backgroundTask ⟨FetchOutcome.success ⟨"locked", some "lock", some "Pay EMI"⟩ 500, none⟩
      ⟨[("activationKey", "ABC123")], 1000, []⟩).2.1 = FetchResult.NewData ∧
    (backgroundTask ⟨FetchOutcome.success ⟨"locked", some "lock", some "Pay EMI"⟩ 500, none⟩
      (backgroundTask ⟨FetchOutcome.success ⟨"locked", some "lock", some "Pay EMI"⟩ 500, none⟩
        ⟨[("activationKey", "ABC123")], 1000, []⟩).1).2.1 = FetchResult.NewData ∧
    ackCount (backgroundTask
        ⟨FetchOutcome.success ⟨"locked", some "lock", some "Pay EMI"⟩ 500, none⟩
        ⟨[("activationKey", "ABC123")], 1000, []⟩).2.2 +
      ackCount (backgroundTask
        ⟨FetchOutcome.success ⟨"locked", some "lock", some "Pay EMI"⟩ 500, none⟩
        (backgroundTask ⟨FetchOutcome.success ⟨"locked", some "lock", some "Pay EMI"⟩ 500, none⟩
          ⟨[("activationKey", "ABC123")], 1000, []⟩).1).2.2 = 2 :=
  no_idempotence_guard _ _ "ABC123" ⟨"locked", some "lock", some "Pay EMI"⟩ 500
    rfl (by decide) rfl rfl (by decide)

/-- Claim C1 counterexample: processing the same `(identity, command)` pair in
two successive cycles does not short-circuit the second cycle to `NoData` with
no re-dispatch — the second cycle re-acknowledges and returns `NewData`. -/
theorem ack_guard_counterexample :
    ¬((backgroundTask ⟨FetchOutcome.success ⟨"locked", some "lock", some "Pay EMI"⟩ 500, none⟩
        (backgroundTask ⟨FetchOutcome.success ⟨"locked", some "lock", some "Pay EMI"⟩ 500, none⟩
          ⟨[("activationKey", "ABC123")], 1000, []⟩).1).2.1 = FetchResult.NoData ∧
      ackCount (backgroundTask
          ⟨FetchOutcome.success ⟨"locked", some "lock", some "Pay EMI"⟩ 500, none⟩
          (backgroundTask ⟨FetchOutcome.success ⟨"locked", some "lock", some "Pay EMI"⟩ 500, none⟩
            ⟨[("activationKey", "ABC123")], 1000, []⟩).1).2.2 = 0) := by
  decide

/-- Claim C2, as amended: the push path has no in-flight guard.  Each of two
back-to-back deliveries of the same `lock` command for the same identity goes
through the full dispatch and invokes the full-lockdown capability once — two
invocations in total — and the second caller repeats every side effect instead
of observing an in-progress cycle and returning without effects. -/
theorem push_no_inflight_guard (s : SyncState) (m1 m2 : Option String) :
    applyCount (pushDeliver (some "lock") m1 none s).2 = 1 ∧
    applyCount (pushDeliver (some "lock") m2 none
      (pushDeliver (some "lock") m1 none s).1).2 = 1 := by
  exact ⟨(pushDeliver_lock_spec s m1).2.1,
    (pushDeliver_lock_spec (pushDeliver (some "lock") m1 none s).1 m2).2.1⟩

/-- Claim C2 counterexample: two reconciliation cycles for the same identity
carrying the same `lock` command invoke the lockdown capability twice, not
exactly once. -/
theorem race_safety_counterexample :
    ¬(lockdownCount ((pushDeliver (some "lock") (some "Pay EMI") none
        ⟨[("activationKey", "ABC123")], 0, []⟩).2 ++
      (pushDeliver (some "lock") (some "Pay EMI") none
        (pushDeliver (some "lock") (some "Pay EMI") none
          ⟨[("activationKey", "ABC123")], 0, []⟩).1).2) = 1) := by
  decide

/-- Claim C3, as amended: there is no in-flight flag for Reset.  Every
dispatched Reset schedules its own destructive wipe ten seconds out, so a
second Reset dispatched while the first wipe is still pending schedules an
additional wipe: after two Resets, two wipes are pending. -/
theorem reset_schedules_additional_wipe (s : SyncState) (m1 m2 : Option String) :
    (handleCommand "reset" m2 none (handleCommand "reset" m1 none s).1).1.pendingResets =
      s.pendingResets ++ [s.now + 10000] ++ [s.now + 10000] := by
  have h1 := handleCommand_reset_pending m1 s
  have h2 := handleCommand_reset_pending m2 (handleCommand "reset" m1 none s).1
  have hn := handleCommand_now "reset" m1 none s
  rw [h2, h1, hn]

/-- Claim C3 counterexample: dispatching a second Reset while the first is in
flight does schedule an additional wipe — afterwards two wipes are pending,
not one. -/
theorem reset_inflight_flag_counterexample :
    ¬((handleCommand "reset" none none
        (handleCommand "reset" none none
          ⟨[("activationKey", "K")], 0, []⟩).1).1.pendingResets.length = 1) := by
  decide

/-- Claim C4: Reset irreversibility.  Once `reset` is dispatched, the wipe is
pending at `now + 10000` and no subsequently dispatched command — `unlock`
included, and whether or not its notification call fails — removes it; when
the clock reaches the scheduled fire time the persisted state is wiped. -/
theorem reset_irreversible (s : SyncState) (m1 m2 : Option String) (c : String)
    (ne : Option String) :
    (s.now + 10000) ∈
      (handleCommand c m2 ne (handleCommand "reset" m1 none s).1).1.pendingResets ∧
    (advanceTo (s.now + 10000)
      (handleCommand c m2 ne (handleCommand "reset" m1 none s).1).1).store = [] := by
  have h1 := handleCommand_reset_pending m1 s
  obtain ⟨t, h2⟩ := handleCommand_pending_extends c m2 ne (handleCommand "reset" m1 none s).1
  have hmem : (s.now + 10000) ∈
      (handleCommand c m2 ne (handleCommand "reset" m1 none s).1).1.pendingResets := by
    rw [h2, h1]
    simp
  exact ⟨hmem, advanceTo_fires _ _ _ hmem le_rfl⟩

/-- Claim C5 evidence: the 25-second abort timer is dead code — the
`AbortController` signal is never passed to `deviceAPI.getDeviceStatus` — so a
status fetch that takes 30000 ms (beyond the ≈25000 ms budget) is not
abandoned: the cycle completes with `NewData` and `lastSyncTime` IS advanced,
where the claim requires `Failed` and no advance. -/
theorem slow_fetch_not_abandoned :
    (backgroundTask ⟨FetchOutcome.success ⟨"active", none, none⟩ 30000, none⟩
      ⟨[("activationKey", "ABC123")], 1000, []⟩).2.1 = FetchResult.NewData ∧
    (backgroundTask ⟨FetchOutcome.success ⟨"active", none, none⟩ 30000, none⟩
      ⟨[("activationKey", "ABC123")], 1000, []⟩).1.store.getItem "lastSyncTime" =
        some "31000" := by
  decide

/-- Claim C6: state convergence for `[Lock, Reminder, Unlock]` delivered to
the push path from an unlocked state.  The final state is unlocked, the lock
message is persisted by Lock and cleared by Unlock, the capability is invoked
exactly twice over the three deliveries — one full-lockdown apply and one
release — and the Reminder delivery makes zero capability invocations. -/
theorem lock_reminder_unlock_convergence (s : SyncState) (msg : String)
    (_h : isDeviceLocked s.store = false) :
    isDeviceLocked (pushDeliver (some "unlock") none none
      (pushDeliver (some "reminder") none none
        (pushDeliver (some "lock") (some msg) none s).1).1).1.store = false ∧
    (pushDeliver (some "lock") (some msg) none s).1.store.getItem "lockMessage" =
      some msg ∧
    (pushDeliver (some "unlock") none none
      (pushDeliver (some "reminder") none none
        (pushDeliver (some "lock") (some msg) none s).1).1).1.store.getItem
      "lockMessage" = none ∧
    applyCount ((pushDeliver (some "lock") (some msg) none s).2 ++
      (pushDeliver (some "reminder") none none
        (pushDeliver (some "lock") (some msg) none s).1).2 ++
      (pushDeliver (some "unlock") none none
        (pushDeliver (some "reminder") none none
          (pushDeliver (some "lock") (some msg) none s).1).1).2) = 1 ∧
    releaseCount ((pushDeliver (some "lock") (some msg) none s).2 ++
      (pushDeliver (some "reminder") none none
        (pushDeliver (some "lock") (some msg) none s).1).2 ++
      (pushDeliver (some "unlock") none none
        (pushDeliver (some "reminder") none none
          (pushDeliver (some "lock") (some msg) none s).1).1).2) = 1 ∧
    lockdownCount ((pushDeliver (some "lock") (some msg) none s).2 ++
      (pushDeliver (some "reminder") none none
        (pushDeliver (some "lock") (some msg) none s).1).2 ++
      (pushDeliver (some "unlock") none none
        (pushDeliver (some "reminder") none none
          (pushDeliver (some "lock") (some msg) none s).1).1).2) = 2 ∧
    lockdownCount (pushDeliver (some "reminder") none none
      (pushDeliver (some "lock") (some msg) none s).1).2 = 0 := by
  obtain ⟨ls, la, lr, ll⟩ := pushDeliver_lock_spec s (some msg)
  obtain ⟨rs, ra, rr, rl⟩ :=
    pushDeliver_reminder_spec (pushDeliver (some "lock") (some msg) none s).1
  obtain ⟨us, ua, ur, ul⟩ :=
    pushDeliver_unlock_spec (pushDeliver (some "reminder") none none
      (pushDeliver (some "lock") (some msg) none s).1).1
  refine ⟨?_, ?_, ?_, ?_, ?_, ?_, rl⟩
  · rw [us, rs, ls]
    simp [isDeviceLocked, Store.getItem_removeItem_other, Store.getItem_setItem_self]
  · rw [ls, Store.getItem_setItem_self, jsOr_some_empty]
  · rw [us, Store.getItem_removeItem_self]
  · simp only [applyCount, List.countP_append] at la ra ua ⊢
    omega
  · simp only [releaseCount, List.countP_append] at lr rr ur ⊢
    omega
  · simp only [lockdownCount, List.countP_append] at ll rl ul ⊢
    omega

/-- Witness for `lock_reminder_unlock_convergence`: an activated, unlocked
device and the message `Pay EMI`. -/
theorem lock_reminder_unlock_convergence_witness :
    isDeviceLocked (pushDeliver (some "unlock") none none
      (pushDeliver (some "reminder") none none
        (pushDeliver (some "lock") (some "Pay EMI") none
          ⟨[("activationKey", "ABC123")], 0, []⟩).1).1).1.store = false ∧
    (pushDeliver (some "lock") (some "Pay EMI") none
      ⟨[("activationKey", "ABC123")], 0, []⟩).1.store.getItem "lockMessage" =
      some "Pay EMI" ∧
    (pushDeliver (some "unlock") none none
      (pushDeliver (some "reminder") none none
        (pushDeliver (some "lock") (some "Pay EMI") none
          ⟨[("activationKey", "ABC123")], 0, []⟩).1).1).1.store.getItem
      "lockMessage" = none ∧
    applyCount ((pushDeliver (some "lock") (some "Pay EMI") none
        ⟨[("activationKey", "ABC123")], 0, []⟩).2 ++
      (pushDeliver (some "reminder") none none
        (pushDeliver (some "lock") (some "Pay EMI") none
          ⟨[("activationKey", "ABC123")], 0, []⟩).1).2 ++
      (pushDeliver (some "unlock") none none
        (pushDeliver (some "reminder") none none
          (pushDeliver (some "lock") (some "Pay EMI") none
            ⟨[("activationKey", "ABC123")], 0, []⟩).1).1).2) = 1 ∧
    releaseCount ((pushDeliver (some "lock") (some "Pay EMI") none
        ⟨[("activationKey", "ABC123")], 0, []⟩).2 ++
      (pushDeliver (some "reminder") none none
        (pushDeliver (some "lock") (some "Pay EMI") none
          ⟨[("activationKey", "ABC123")], 0, []⟩).1).2 ++
      (pushDeliver (some "unlock") none none
        (pushDeliver (some "reminder") none none
          (pushDeliver (some "lock") (some "Pay EMI") none
            ⟨[("activationKey", "ABC123")], 0, []⟩).1).1).2) = 1 ∧
    lockdownCount ((pushDeliver (some "lock") (some "Pay EMI") none
        ⟨[("activationKey", "ABC123")], 0, []⟩).2 ++
      (pushDeliver (some "reminder") none none
        (pushDeliver (some "lock") (some "Pay EMI") none
          ⟨[("activationKey", "ABC123")], 0, []⟩).1).2 ++
      (pushDeliver (some "unlock") none none
        (pushDeliver (some "reminder") none none
          (pushDeliver (some "lock") (some "Pay EMI") none
            ⟨[("activationKey", "ABC123")], 0, []⟩).1).1).2) = 2 ∧
    lockdownCount (pushDeliver (some "reminder") none none
      (pushDeliver (some "lock") (some "Pay EMI") none
        ⟨[("activationKey", "ABC123")], 0, []⟩).1).2 = 0 :=
  lock_reminder_unlock_convergence ⟨[("activationKey", "ABC123")], 0, []⟩ "Pay EMI"
    (by decide)

/-- Claim C7: failure recording.  When the status fetch rejects, or the
dispatch of a recognized command throws (a rejected notification call), the
cycle returns the `Failed` result — it returns normally rather than
propagating the exception, since `backgroundTask` is a total function into
results — and persists the error detail with a timestamp under
`lastSyncError`. -/
theorem failure_recorded (env : TaskEnv) (s : SyncState) (key msg : String)
    (hk : s.store.getItem "activationKey" = some key) (hk0 : ¬ key = "")
    (hfail : env.fetch = FetchOutcome.failure msg ∨
      (env.notifyErr = some msg ∧ ∃ report dur,
        env.fetch = FetchOutcome.success report dur ∧
        shouldDispatch report.command = true ∧
        recognizedCommand (report.command.getD "") = true)) :
    (backgroundTask env s).2.1 = FetchResult.Failed ∧
    (backgroundTask env s).1.store.getItem "lastSyncError" =
      some (syncErrorJson msg s.now) := by
  rcases hfail with hf | ⟨hn, report, dur, hf, hc, hr⟩
  · unfold backgroundTask
    rw [hk, hf]
    simp [hk0, Store.getItem_setItem_self]
  · have he := handleCommand_err_recognized (report.command.getD "")
      report.lockMessage msg s hr
    unfold backgroundTask
    rw [hk, hf, hn]
    simp only [hk0, if_false, fetchAborted, abortSignalConnected, Bool.false_and,
      Bool.false_eq_true, hc, if_true, he]
    exact ⟨trivial, by rw [Store.getItem_setItem_self]⟩

/-- Witness for `failure_recorded`: a rejected fetch with detail
`Network Error` for identity `ABC123` at clock 1000. -/
theorem failure_recorded_witness :
    (backgroundTask ⟨FetchOutcome.failure "Network Error", none⟩
      ⟨[("activationKey", "ABC123")], 1000, []⟩).2.1 = FetchResult.Failed ∧
    (backgroundTask ⟨FetchOutcome.failure "Network Error", none⟩
      ⟨[("activationKey", "ABC123")], 1000, []⟩).1.store.getItem "lastSyncError" =
      some (syncErrorJson "Network Error" 1000) :=
  failure_recorded _ _ "ABC123" "Network Error" rfl (by decide) (Or.inl rfl)

/-- Claim C8: no-identity short-circuit.  With no activation key (or an empty
one, which JS treats as falsy) in the store, the cycle returns `NoData`, the
state is untouched, and the effect log is empty: zero fetches, zero
dispatcher calls, zero store writes. -/
theorem no_identity_short_circuit (env : TaskEnv) (s : SyncState)
    (h : jsFalsy (s.store.getItem "activationKey") = true) :
    backgroundTask env s = (s, FetchResult.NoData, []) := by
  unfold backgroundTask
  cases hk : s.store.getItem "activationKey" with
  | none => rfl
  | some k =>
      rw [hk] at h
      simp only [jsFalsy, decide_eq_true_eq] at h
      simp [h]

/-- Witness for `no_identity_short_circuit`: an empty store. -/
theorem no_identity_short_circuit_witness :
    backgroundTask ⟨FetchOutcome.failure "server down", none⟩
      ⟨[], 0, []⟩ = (⟨[], 0, []⟩, FetchResult.NoData, []) :=
  no_identity_short_circuit _ _ (by decide)

/-- Claim C9: capability totality.  Every kiosk-service wrapper returns a
boolean outcome on every path — non-Android platform, missing native module,
or a throwing native call — and never lets the exception escape (no `throws`
value is ever returned); with the module missing the wrappers report `false`;
and `enableFullLockdown` records each sub-step's outcome independently, so a
failed sub-step is marked `false` in the results record while an earlier
successful sub-step keeps both its `true` mark and its store write — no
rollback. -/
theorem capability_totality (env : NativeEnv) (st : Store) :
    (∃ r, isDeviceAdmin env st = NativeCall.ok r) ∧
    (∃ r, requestDeviceAdmin env st = NativeCall.ok r) ∧
    (∃ r, startLockTaskMode env st = NativeCall.ok r) ∧
    (∃ r, stopLockTaskMode env st = NativeCall.ok r) ∧
    (∃ r, hideAppFromLauncher env st = NativeCall.ok r) ∧
    (∃ r, showAppInLauncher env st = NativeCall.ok r) ∧
    (∃ r, disableStatusBar env st = NativeCall.ok r) ∧
    (∃ r, enableStatusBar env st = NativeCall.ok r) ∧
    (∀ b, ∃ r, setUserRestrictions env b st = NativeCall.ok r) ∧
    (∃ r, enableFullLockdown env st = NativeCall.ok r) ∧
    (∃ r, disableFullLockdown env st = NativeCall.ok r) ∧
    (moduleReady env = false →
      startLockTaskMode env st = NativeCall.ok (st, false) ∧
      hideAppFromLauncher env st = NativeCall.ok (st, false)) ∧
    (moduleReady env = true → env.isDeviceAdminCall = NativeCall.ok true →
      ∃ st4, enableFullLockdown env st = NativeCall.ok (st4,
        ⟨true, env.startLockTaskCall.succeeded, env.hideAppCall.succeeded,
          env.disableStatusBarCall.succeeded, env.setRestrictionsOnCall.succeeded⟩)) ∧
    (moduleReady env = true → env.isDeviceAdminCall = NativeCall.ok true →
      env.startLockTaskCall = NativeCall.ok () →
      ∃ st4, enableFullLockdown env st = NativeCall.ok (st4,
        ⟨true, true, env.hideAppCall.succeeded, env.disableStatusBarCall.succeeded,
          env.setRestrictionsOnCall.succeeded⟩) ∧
        st4.getItem "kioskModeActive" = some "true") := by
  refine ⟨isDeviceAdmin_ok env st, requestDeviceAdmin_ok env st,
    startLockTaskMode_ok env st, stopLockTaskMode_ok env st,
    hideAppFromLauncher_ok env st, showAppInLauncher_ok env st,
    disableStatusBar_ok env st, enableStatusBar_ok env st,
    fun b => setUserRestrictions_ok env b st,
    enableFullLockdown_ok env st, disableFullLockdown_ok env st, ?_, ?_, ?_⟩
  · intro hm
    unfold startLockTaskMode hideAppFromLauncher
    simp [hm]
  · intro hm ha
    exact enableFullLockdown_results env st hm ha
  · intro hm ha hks
    exact enableFullLockdown_no_rollback env st hm ha hks

/-- Claim C10: the UI-boundary lock query is fail-open.  `isDeviceLocked`
returns `true` exactly when the persisted `isLocked` key holds the literal
string `true`; with the key absent or holding any other value it reports
unlocked — in particular, right after the destructive wipe clears the store
the device reports unlocked. -/
theorem isDeviceLocked_fail_open (st : Store) :
    (isDeviceLocked st = true ↔ st.getItem "isLocked" = some "true") ∧
    isDeviceLocked (performFactoryReset st) = false := by
  constructor
  · simp [isDeviceLocked]
  · simp [isDeviceLocked, performFactoryReset, Store.getItem]

end Kavach
